import Mathlib

/-!
# Verification of the `DVPNShareFHE` contract (src/contracts/dvpnFHE_Share.sol)

Shallow embedding of the contract's state and external functions.

Modelling choices:
* Addresses, batch ids, request ids, timestamps and `uint256` values are `Nat`.
* `euint32` handles are opaque: `Ciphertext` is a free inductive with one
  constructor per way the contract obtains a handle (`handle0` is the default
  zero `bytes32` handle of an uninitialised `euint32`, `encZero` is
  `FHE.asEuint32(0)`, `fheAdd` is `FHE.add`).  Distinct constructions give
  distinct handles, the standard collision-resistance idealisation.
* `keccak256(abi.encode(ctsBytes, address(this)))` is idealised as the
  injective `StateHash.digest` constructor; the default `bytes32(0)` stored in
  an absent `DecryptionContext` is the distinct `StateHash.empty`.  A real
  keccak output is never the zero word, so `digest cts ≠ empty` is faithful.
* Solidity mappings are total functions with the zero-value default, exactly
  as the EVM presents them.
* Each external function is `... → Except Err State`.  `.error e` models
  `revert e`: the transaction leaves every piece of storage unchanged, so an
  erroring call by construction performs no state mutation.
* `block.timestamp` is an explicit `now` argument; the request id returned by
  `FHE.requestDecryption` and the boolean outcome of `FHE.checkSignatures`
  are environment-chosen arguments (`requestId`, `sigOk`).
* `emit` is modelled by appending to an `events` log in the state.
-/

namespace DVPNShareFHE

/-- Opaque FHE ciphertext handles (`euint32`). -/
inductive Ciphertext
  | handle0
  | encZero
  | fheAdd (a b : Ciphertext)
  deriving DecidableEq, Repr

/-- `bytes32` commitment values: `empty` is the zero word (mapping default),
`digest cts` idealises `_hashCiphertexts` (keccak over the handles and the
contract's own address, collision-resistant and never zero). -/
inductive StateHash
  | empty
  | digest (cts : List Ciphertext)
  deriving DecidableEq, Repr

/-- `_hashCiphertexts` (line 160): digest of the ciphertext handle list. -/
def hashCiphertexts (cts : List Ciphertext) : StateHash :=
  StateHash.digest cts

/-- Contract errors (lines 10-18). -/
inductive Err
  | NotOwner
  | NotProvider
  | Paused
  | CooldownActive
  | BatchClosedOrDoesNotExist
  | InvalidParameter
  | ReplayAttempt
  | StateMismatch
  | DecryptionFailed
  deriving DecidableEq, Repr

/-- Contract events (lines 20-29). -/
inductive Event
  | ProviderAdded (provider : Nat)
  | ProviderRemoved (provider : Nat)
  | Paused (account : Nat)
  | Unpaused (account : Nat)
  | CooldownSecondsChanged (oldCooldownSeconds newCooldownSeconds : Nat)
  | BatchOpened (batchId : Nat)
  | BatchClosed (batchId : Nat) (totalEncryptedBandwidth : Ciphertext)
  | BandwidthContributed (provider batchId : Nat) (encryptedBandwidth : Ciphertext)
  | DecryptionRequested (requestId batchId : Nat) (stateHash : StateHash)
  | DecryptionCompleted (requestId batchId totalBandwidth : Nat)
  deriving DecidableEq, Repr

/-- `struct Batch` (line 37).  `exists` is spelled `exists'`. -/
structure Batch where
  exists' : Bool
  closed : Bool
  totalEncryptedBandwidth : Ciphertext
  deriving DecidableEq, Repr

/-- Zero value of a `Batch` mapping slot. -/
def Batch.default0 : Batch :=
  ⟨false, false, Ciphertext.handle0⟩

/-- `struct DecryptionContext` (line 31). -/
structure DecryptionContext where
  batchId : Nat
  stateHash : StateHash
  processed : Bool
  deriving DecidableEq, Repr

/-- Zero value of a `DecryptionContext` mapping slot. -/
def DecryptionContext.default0 : DecryptionContext :=
  ⟨0, StateHash.empty, false⟩

/-- Contract storage (lines 43-51) plus the event log. -/
structure State where
  isProvider : Nat → Bool
  batches : Nat → Batch
  decryptionContexts : Nat → DecryptionContext
  lastSubmissionTime : Nat → Nat
  lastDecryptionRequestTime : Nat → Nat
  owner : Nat
  paused : Bool
  cooldownSeconds : Nat
  events : List Event

/-- The constructor (line 68): deployer becomes owner, cooldown 60 s. -/
def State.initial (deployer : Nat) : State where
  isProvider := fun _ => false
  batches := fun _ => Batch.default0
  decryptionContexts := fun _ => DecryptionContext.default0
  lastSubmissionTime := fun _ => 0
  lastDecryptionRequestTime := fun _ => 0
  owner := deployer
  paused := false
  cooldownSeconds := 60
  events := []

/-- `addProvider` (line 73), `onlyOwner`. -/
def addProvider (s : State) (sender provider : Nat) : Except Err State :=
  if sender ≠ s.owner then .error .NotOwner else
  .ok { s with
    isProvider := fun a => if a = provider then true else s.isProvider a
    events := s.events ++ [Event.ProviderAdded provider] }

/-- `removeProvider` (line 78), `onlyOwner`. -/
def removeProvider (s : State) (sender provider : Nat) : Except Err State :=
  if sender ≠ s.owner then .error .NotOwner else
  .ok { s with
    isProvider := fun a => if a = provider then false else s.isProvider a
    events := s.events ++ [Event.ProviderRemoved provider] }

/-- `pause` (line 83), `onlyOwner whenNotPaused`. -/
def pause (s : State) (sender : Nat) : Except Err State :=
  if sender ≠ s.owner then .error .NotOwner else
  if s.paused then .error .Paused else
  .ok { s with paused := true, events := s.events ++ [Event.Paused sender] }

/-- `unpause` (line 88), `onlyOwner` only — not pause-gated. -/
def unpause (s : State) (sender : Nat) : Except Err State :=
  if sender ≠ s.owner then .error .NotOwner else
  .ok { s with paused := false, events := s.events ++ [Event.Unpaused sender] }

/-- `setCooldownSeconds` (line 93), `onlyOwner`; rejects zero. -/
def setCooldownSeconds (s : State) (sender newCooldownSeconds : Nat) :
    Except Err State :=
  if sender ≠ s.owner then .error .NotOwner else
  if newCooldownSeconds = 0 then .error .InvalidParameter else
  .ok { s with
    cooldownSeconds := newCooldownSeconds
    events := s.events ++
      [Event.CooldownSecondsChanged s.cooldownSeconds newCooldownSeconds] }

/-- `_batchExists` (line 168). -/
def batchExists (s : State) (batchId : Nat) : Bool :=
  (s.batches batchId).exists'

/-- `openBatch` (line 100), `onlyOwner whenNotPaused`; batch id must be new. -/
def openBatch (s : State) (sender batchId : Nat) : Except Err State :=
  if sender ≠ s.owner then .error .NotOwner else
  if s.paused then .error .Paused else
  if (s.batches batchId).exists' then .error .InvalidParameter else
  .ok { s with
    batches := fun b => if b = batchId then ⟨true, false, Ciphertext.encZero⟩
      else s.batches b
    events := s.events ++ [Event.BatchOpened batchId] }

/-- `closeBatch` (line 106), `onlyOwner whenNotPaused`. -/
def closeBatch (s : State) (sender batchId : Nat) : Except Err State :=
  if sender ≠ s.owner then .error .NotOwner else
  if s.paused then .error .Paused else
  if ¬ batchExists s batchId then .error .BatchClosedOrDoesNotExist else
  if (s.batches batchId).closed then .error .BatchClosedOrDoesNotExist else
  .ok { s with
    batches := fun b => if b = batchId then
        { s.batches batchId with closed := true }
      else s.batches b
    events := s.events ++
      [Event.BatchClosed batchId (s.batches batchId).totalEncryptedBandwidth] }

/-- `contributeBandwidth` (line 113), `onlyProvider whenNotPaused`;
cooldown check precedes the batch check; `now` is `block.timestamp`. -/
def contributeBandwidth (s : State) (sender batchId : Nat)
    (encryptedBandwidth : Ciphertext) (now : Nat) : Except Err State :=
  if ¬ s.isProvider sender then .error .NotProvider else
  if s.paused then .error .Paused else
  if now < s.lastSubmissionTime sender + s.cooldownSeconds then
    .error .CooldownActive else
  if ¬ batchExists s batchId ∨ (s.batches batchId).closed then
    .error .BatchClosedOrDoesNotExist else
  .ok { s with
    lastSubmissionTime := fun a => if a = sender then now
      else s.lastSubmissionTime a
    batches := fun b => if b = batchId then
        { s.batches batchId with
          totalEncryptedBandwidth :=
            Ciphertext.fheAdd (s.batches batchId).totalEncryptedBandwidth
              encryptedBandwidth }
      else s.batches b
    events := s.events ++
      [Event.BandwidthContributed sender batchId encryptedBandwidth] }

/-- `requestBatchDecryption` (line 122), `onlyOwner whenNotPaused`;
`requestId` is the id returned by `FHE.requestDecryption`. -/
def requestBatchDecryption (s : State) (sender batchId now requestId : Nat) :
    Except Err State :=
  if sender ≠ s.owner then .error .NotOwner else
  if s.paused then .error .Paused else
  if now < s.lastDecryptionRequestTime sender + s.cooldownSeconds then
    .error .CooldownActive else
  if ¬ batchExists s batchId ∨ ¬ (s.batches batchId).closed then
    .error .BatchClosedOrDoesNotExist else
  .ok { s with
    lastDecryptionRequestTime := fun a => if a = sender then now
      else s.lastDecryptionRequestTime a
    decryptionContexts := fun r => if r = requestId then
        ⟨batchId,
         hashCiphertexts [(s.batches batchId).totalEncryptedBandwidth],
         false⟩
      else s.decryptionContexts r
    events := s.events ++
      [Event.DecryptionRequested requestId batchId
        (hashCiphertexts [(s.batches batchId).totalEncryptedBandwidth])] }

/-- `myCallback` (line 137): `public`, no caller restriction; `sender` is
`msg.sender` and is never read; `cleartexts` is the abi-decoded `uint256`;
`sigOk` is the outcome of `FHE.checkSignatures(requestId, cleartexts, proof)`. -/
def myCallback (s : State) (sender requestId cleartexts : Nat)
    (sigOk : Bool) : Except Err State :=
  if (s.decryptionContexts requestId).processed then .error .ReplayAttempt else
  if hashCiphertexts
      [(s.batches (s.decryptionContexts requestId).batchId).totalEncryptedBandwidth]
      ≠ (s.decryptionContexts requestId).stateHash then
    .error .StateMismatch else
  if ¬ sigOk then .error .DecryptionFailed else
  .ok { s with
    decryptionContexts := fun r => if r = requestId then
        { s.decryptionContexts requestId with processed := true }
      else s.decryptionContexts r
    events := s.events ++
      [Event.DecryptionCompleted requestId
        (s.decryptionContexts requestId).batchId cleartexts] }

/-- All externally triggerable operations of the contract, for invariant
statements quantified over an arbitrary transaction. -/
inductive Op
  | addProvider (sender provider : Nat)
  | removeProvider (sender provider : Nat)
  | pause (sender : Nat)
  | unpause (sender : Nat)
  | setCooldownSeconds (sender newCooldownSeconds : Nat)
  | openBatch (sender batchId : Nat)
  | closeBatch (sender batchId : Nat)
  | contributeBandwidth (sender batchId : Nat) (encryptedBandwidth : Ciphertext)
      (now : Nat)
  | requestBatchDecryption (sender batchId now requestId : Nat)
  | myCallback (sender requestId cleartexts : Nat) (sigOk : Bool)

/-- One transaction: dispatch an operation against the state. -/
def step (op : Op) (s : State) : Except Err State :=
  match op with
  | .addProvider sender provider => addProvider s sender provider
  | .removeProvider sender provider => removeProvider s sender provider
  | .pause sender => pause s sender
  | .unpause sender => unpause s sender
  | .setCooldownSeconds sender n => setCooldownSeconds s sender n
  | .openBatch sender batchId => openBatch s sender batchId
  | .closeBatch sender batchId => closeBatch s sender batchId
  | .contributeBandwidth sender batchId ct now =>
      contributeBandwidth s sender batchId ct now
  | .requestBatchDecryption sender batchId now requestId =>
      requestBatchDecryption s sender batchId now requestId
  | .myCallback sender requestId cleartexts sigOk =>
      myCallback s sender requestId cleartexts sigOk

/-! ## Inversion lemmas: what a successful call implies about guards and
the post-state -/

theorem addProvider_inv (s s' : State) (sender provider : Nat)
    (h : addProvider s sender provider = .ok s') :
    sender = s.owner ∧
    s' = { s with
      isProvider := fun a => if a = provider then true else s.isProvider a
      events := s.events ++ [Event.ProviderAdded provider] } := by
  unfold addProvider at h
  split at h
  · exact absurd h (by simp)
  · rename_i h1
    injection h with h; subst h
    exact ⟨not_not.mp h1, rfl⟩

theorem removeProvider_inv (s s' : State) (sender provider : Nat)
    (h : removeProvider s sender provider = .ok s') :
    sender = s.owner ∧
    s' = { s with
      isProvider := fun a => if a = provider then false else s.isProvider a
      events := s.events ++ [Event.ProviderRemoved provider] } := by
  unfold removeProvider at h
  split at h
  · exact absurd h (by simp)
  · rename_i h1
    injection h with h; subst h
    exact ⟨not_not.mp h1, rfl⟩

theorem pause_inv (s s' : State) (sender : Nat) (h : pause s sender = .ok s') :
    sender = s.owner ∧ s.paused = false ∧
    s' = { s with paused := true
                  events := s.events ++ [Event.Paused sender] } := by
  unfold pause at h
  split at h
  · exact absurd h (by simp)
  · split at h
    · exact absurd h (by simp)
    · rename_i h1 h2
      injection h with h; subst h
      exact ⟨not_not.mp h1, by simpa using h2, rfl⟩

theorem unpause_inv (s s' : State) (sender : Nat)
    (h : unpause s sender = .ok s') :
    sender = s.owner ∧
    s' = { s with paused := false
                  events := s.events ++ [Event.Unpaused sender] } := by
  unfold unpause at h
  split at h
  · exact absurd h (by simp)
  · rename_i h1
    injection h with h; subst h
    exact ⟨not_not.mp h1, rfl⟩

theorem setCooldownSeconds_inv (s s' : State) (sender n : Nat)
    (h : setCooldownSeconds s sender n = .ok s') :
    sender = s.owner ∧ n ≠ 0 ∧
    s' = { s with
      cooldownSeconds := n
      events := s.events ++
        [Event.CooldownSecondsChanged s.cooldownSeconds n] } := by
  unfold setCooldownSeconds at h
  split at h
  · exact absurd h (by simp)
  · split at h
    · exact absurd h (by simp)
    · rename_i h1 h2
      injection h with h; subst h
      exact ⟨not_not.mp h1, h2, rfl⟩

theorem openBatch_inv (s s' : State) (sender batchId : Nat)
    (h : openBatch s sender batchId = .ok s') :
    sender = s.owner ∧ s.paused = false ∧
    (s.batches batchId).exists' = false ∧
    s' = { s with
      batches := fun b => if b = batchId then ⟨true, false, Ciphertext.encZero⟩
        else s.batches b
      events := s.events ++ [Event.BatchOpened batchId] } := by
  unfold openBatch at h
  split at h
  · exact absurd h (by simp)
  · split at h
    · exact absurd h (by simp)
    · split at h
      · exact absurd h (by simp)
      · rename_i h1 h2 h3
        injection h with h; subst h
        exact ⟨not_not.mp h1, by simpa using h2, by simpa using h3, rfl⟩

theorem closeBatch_inv (s s' : State) (sender batchId : Nat)
    (h : closeBatch s sender batchId = .ok s') :
    sender = s.owner ∧ s.paused = false ∧
    (s.batches batchId).exists' = true ∧ (s.batches batchId).closed = false ∧
    s' = { s with
      batches := fun b => if b = batchId then
          { s.batches batchId with closed := true }
        else s.batches b
      events := s.events ++
        [Event.BatchClosed batchId
          (s.batches batchId).totalEncryptedBandwidth] } := by
  unfold closeBatch at h
  split at h
  · exact absurd h (by simp)
  · split at h
    · exact absurd h (by simp)
    · split at h
      · exact absurd h (by simp)
      · split at h
        · exact absurd h (by simp)
        · rename_i h1 h2 h3 h4
          injection h with h; subst h
          exact ⟨not_not.mp h1, by simpa using h2,
            by simpa [batchExists] using not_not.mp h3, by simpa using h4, rfl⟩

theorem contributeBandwidth_inv (s s' : State) (sender batchId : Nat)
    (ct : Ciphertext) (now : Nat)
    (h : contributeBandwidth s sender batchId ct now = .ok s') :
    s.isProvider sender = true ∧ s.paused = false ∧
    s.lastSubmissionTime sender + s.cooldownSeconds ≤ now ∧
    (s.batches batchId).exists' = true ∧ (s.batches batchId).closed = false ∧
    s' = { s with
      lastSubmissionTime := fun a => if a = sender then now
        else s.lastSubmissionTime a
      batches := fun b => if b = batchId then
          { s.batches batchId with
            totalEncryptedBandwidth :=
              Ciphertext.fheAdd (s.batches batchId).totalEncryptedBandwidth ct }
        else s.batches b
      events := s.events ++
        [Event.BandwidthContributed sender batchId ct] } := by
  unfold contributeBandwidth at h
  split at h
  · exact absurd h (by simp)
  · split at h
    · exact absurd h (by simp)
    · split at h
      · exact absurd h (by simp)
      · split at h
        · exact absurd h (by simp)
        · rename_i h1 h2 h3 h4
          injection h with h; subst h
          have h4' := not_or.mp h4
          exact ⟨not_not.mp h1, by simpa using h2, Nat.le_of_not_lt h3,
            by simpa [batchExists] using not_not.mp h4'.1,
            by simpa using h4'.2, rfl⟩

theorem requestBatchDecryption_inv (s s' : State)
    (sender batchId now requestId : Nat)
    (h : requestBatchDecryption s sender batchId now requestId = .ok s') :
    sender = s.owner ∧ s.paused = false ∧
    s.lastDecryptionRequestTime sender + s.cooldownSeconds ≤ now ∧
    (s.batches batchId).exists' = true ∧ (s.batches batchId).closed = true ∧
    s' = { s with
      lastDecryptionRequestTime := fun a => if a = sender then now
        else s.lastDecryptionRequestTime a
      decryptionContexts := fun r => if r = requestId then
          ⟨batchId,
           hashCiphertexts [(s.batches batchId).totalEncryptedBandwidth],
           false⟩
        else s.decryptionContexts r
      events := s.events ++
        [Event.DecryptionRequested requestId batchId
          (hashCiphertexts [(s.batches batchId).totalEncryptedBandwidth])] } := by
  unfold requestBatchDecryption at h
  split at h
  · exact absurd h (by simp)
  · split at h
    · exact absurd h (by simp)
    · split at h
      · exact absurd h (by simp)
      · split at h
        · exact absurd h (by simp)
        · rename_i h1 h2 h3 h4
          injection h with h; subst h
          have h4' := not_or.mp h4
          exact ⟨not_not.mp h1, by simpa using h2, Nat.le_of_not_lt h3,
            by simpa [batchExists] using not_not.mp h4'.1,
            not_not.mp (by simpa using h4'.2), rfl⟩

theorem myCallback_inv (s s' : State) (sender requestId cleartexts : Nat)
    (sigOk : Bool) (h : myCallback s sender requestId cleartexts sigOk = .ok s') :
    (s.decryptionContexts requestId).processed = false ∧
    hashCiphertexts
        [(s.batches (s.decryptionContexts requestId).batchId).totalEncryptedBandwidth]
      = (s.decryptionContexts requestId).stateHash ∧
    sigOk = true ∧
    s' = { s with
      decryptionContexts := fun r => if r = requestId then
          { s.decryptionContexts requestId with processed := true }
        else s.decryptionContexts r
      events := s.events ++
        [Event.DecryptionCompleted requestId
          (s.decryptionContexts requestId).batchId cleartexts] } := by
  unfold myCallback at h
  split at h
  · exact absurd h (by simp)
  · split at h
    · exact absurd h (by simp)
    · split at h
      · exact absurd h (by simp)
      · rename_i h1 h2 h3
        injection h with h; subst h
        exact ⟨by simpa using h1, not_not.mp h2, by simpa using h3, rfl⟩

/-! ## Concrete example states used by witnesses and counterexamples -/

/-- A reachable-shaped state: owner `0`, provider `1`, batch `1` opened and
closed with accumulator `encZero`, and a pending decryption request `7`
whose stored commitment matches the batch's current accumulator. -/
def exS : State where
  isProvider := fun a => a == 1
  batches := fun b => if b = 1 then ⟨true, true, Ciphertext.encZero⟩
    else Batch.default0
  decryptionContexts := fun r => if r = 7 then
      ⟨1, hashCiphertexts [Ciphertext.encZero], false⟩
    else DecryptionContext.default0
  lastSubmissionTime := fun _ => 0
  lastDecryptionRequestTime := fun _ => 0
  owner := 0
  paused := false
  cooldownSeconds := 60
  events := []

/-- The state after the successful callback for request `7` on `exS`. -/
def exS1 : State :=
  match myCallback exS 5 7 25 true with
  | .ok t => t
  | .error _ => exS

theorem exS1_ok : myCallback exS 5 7 25 true = Except.ok exS1 := rfl

/-- `exS` with batch `1`'s accumulator mutated after request `7` was stored:
the stored commitment no longer matches. -/
def exSmut : State :=
  { exS with
    batches := fun b => if b = 1 then
        ⟨true, true, Ciphertext.fheAdd Ciphertext.encZero Ciphertext.encZero⟩
      else Batch.default0 }

/-! ## Claims -/

/-- C1: at most one invocation of `myCallback` ever transitions a request
from Pending to Processed; whenever a callback for `rid` succeeds, the
request was Pending before, is Processed after, and every subsequent
callback with the same request id fails `ReplayAttempt` — for any caller,
any cleartext, and any proof outcome (in particular a valid proof with the
correct cleartext).  A failing call is a revert and by the `Except`
semantics of the model touches no state. -/
theorem C1_callback_processes_once (s s' : State) (sender rid ct : Nat)
    (sig : Bool) (hok : myCallback s sender rid ct sig = .ok s') :
    (s.decryptionContexts rid).processed = false ∧
    (s'.decryptionContexts rid).processed = true ∧
    ∀ (sender' ct' : Nat) (sig' : Bool),
      myCallback s' sender' rid ct' sig' = .error .ReplayAttempt := by
  unfold myCallback at hok
  by_cases h1 : (s.decryptionContexts rid).processed = true
  · rw [if_pos h1] at hok; exact absurd hok (by simp)
  · rw [if_neg h1] at hok
    by_cases h2 : hashCiphertexts
        [(s.batches (s.decryptionContexts rid).batchId).totalEncryptedBandwidth]
        ≠ (s.decryptionContexts rid).stateHash
    · rw [if_pos h2] at hok; exact absurd hok (by simp)
    · rw [if_neg h2] at hok
      by_cases h3 : sig = true
      · rw [if_neg (by simp [h3])] at hok
        injection hok with hs'
        subst hs'
        refine ⟨by simpa using h1, by simp, ?_⟩
        intro sender' ct' sig'
        simp [myCallback]
      · rw [if_pos h3] at hok; exact absurd hok (by simp)

/-- C1 witness: on the concrete post-callback state `exS1`, a second
callback for request `7` — with a different caller, different cleartext and
an arbitrary proof outcome — fails `ReplayAttempt`. -/
theorem C1_witness : myCallback exS1 9 7 99 false = .error .ReplayAttempt :=
  (C1_callback_processes_once exS exS1 5 7 25 true exS1_ok).2.2 9 99 false

/-- C2: if at callback time the commitment recomputed over the referenced
batch's current accumulator differs from the one stored at request time
(and the request is still Pending, else the earlier replay check fires),
the callback fails `StateMismatch`: a revert, so the request stays Pending
and nothing is decoded or published. -/
theorem C2_state_mismatch (s : State) (sender rid ct : Nat) (sig : Bool)
    (hpend : (s.decryptionContexts rid).processed = false)
    (hmis : hashCiphertexts
        [(s.batches (s.decryptionContexts rid).batchId).totalEncryptedBandwidth]
        ≠ (s.decryptionContexts rid).stateHash) :
    myCallback s sender rid ct sig = .error .StateMismatch := by
  unfold myCallback
  rw [if_neg (by simp [hpend]), if_pos hmis]

/-- C2 witness: on `exSmut`, where batch `1`'s accumulator was mutated
after request `7` stored its commitment, the callback — even with a valid
proof — fails `StateMismatch`. -/
theorem C2_witness : myCallback exSmut 5 7 25 true = .error .StateMismatch :=
  C2_state_mismatch exSmut 5 7 25 true rfl (by decide)

/-- C3 counterexample: in the freshly deployed state no request was ever
stored, so request id `0` is unknown; yet the callback fails
`StateMismatch`, not `ReplayAttempt` as the claim states — the replay
check only tests the `processed` flag, which is `false` in the default
mapping slot, and the zero stored commitment then mismatches the
recomputed digest. -/
theorem C3_counterexample :
    myCallback (State.initial 0) 3 0 5 true = .error .StateMismatch ∧
    myCallback (State.initial 0) 3 0 5 true ≠ .error .ReplayAttempt := by
  refine ⟨rfl, fun h => ?_⟩
  rw [show myCallback (State.initial 0) 3 0 5 true = .error .StateMismatch
    from rfl] at h
  exact absurd h (by simp)

/-- C3 amended: a callback whose request id is unknown (its mapping slot
still holds the default `DecryptionContext`) fails `StateMismatch` — the
default zero commitment never equals a recomputed digest — rather than
`ReplayAttempt`. -/
theorem C3_unknown_id_state_mismatch (s : State) (sender rid ct : Nat)
    (sig : Bool) (hunknown : s.decryptionContexts rid = DecryptionContext.default0) :
    myCallback s sender rid ct sig = .error .StateMismatch := by
  unfold myCallback
  rw [if_neg (by simp [hunknown, DecryptionContext.default0]),
    if_pos (by simp [hunknown, DecryptionContext.default0, hashCiphertexts])]

/-- C3 witness: unknown request id `0` on the fresh deployment fails
`StateMismatch`. -/
theorem C3_witness : myCallback (State.initial 1) 3 0 5 true = .error .StateMismatch :=
  C3_unknown_id_state_mismatch (State.initial 1) 3 0 5 true rfl

/-- C4 counterexample: `myCallback` carries no caller restriction.  On the
same concrete state, two distinct callers (`5` and `6`) both invoke the
callback successfully with identical effect; at most one of them can be
the engine's trusted channel, so an arbitrary caller can successfully
invoke it, refuting the claim. -/
theorem C4_counterexample :
    (5 : Nat) ≠ 6 ∧
    myCallback exS 5 7 25 true = Except.ok exS1 ∧
    myCallback exS 6 7 25 true = Except.ok exS1 :=
  ⟨by decide, rfl, rfl⟩

/-- C4 amended: the callback does not restrict its caller — its outcome is
independent of `msg.sender` — and authenticity rests on the proof check
alone: an invocation whose proof does not verify (with the replay and
state checks passing) fails `DecryptionFailed`. -/
theorem C4_no_caller_gate (s : State) (a b rid ct : Nat) (sig : Bool) :
    myCallback s a rid ct sig = myCallback s b rid ct sig ∧
    ((s.decryptionContexts rid).processed = false →
      hashCiphertexts
          [(s.batches (s.decryptionContexts rid).batchId).totalEncryptedBandwidth]
        = (s.decryptionContexts rid).stateHash →
      myCallback s a rid ct false = .error .DecryptionFailed) := by
  refine ⟨rfl, fun h1 h2 => ?_⟩
  unfold myCallback
  rw [if_neg (by simp [h1]), if_neg (by simp [h2]), if_pos (by simp)]

/-- C4 witness: on `exS` with request `7` Pending and the commitment
matching, a callback with a failing proof check is rejected
`DecryptionFailed`. -/
theorem C4_witness : myCallback exS 5 7 25 false = .error .DecryptionFailed :=
  (C4_no_caller_gate exS 5 6 7 25 true).2 rfl rfl

/-- C5: a contribution to a batch that does not exist or is closed never
succeeds (so the accumulator is never changed — a revert mutates nothing),
and once the provider, pause and cooldown guards pass it is rejected with
`BatchClosedOrDoesNotExist` (the error the spec calls `BatchUnavailable`). -/
theorem C5_closed_batch_rejected (s : State) (sender batchId now : Nat)
    (ct : Ciphertext)
    (hbatch : (s.batches batchId).exists' = false ∨
      (s.batches batchId).closed = true) :
    (∀ s', contributeBandwidth s sender batchId ct now ≠ .ok s') ∧
    (s.isProvider sender = true → s.paused = false →
      s.lastSubmissionTime sender + s.cooldownSeconds ≤ now →
      contributeBandwidth s sender batchId ct now
        = .error .BatchClosedOrDoesNotExist) := by
  have hcond : ¬ batchExists s batchId = true ∨
      (s.batches batchId).closed = true := by
    rcases hbatch with h | h
    · exact Or.inl (by simp [batchExists, h])
    · exact Or.inr h
  constructor
  · intro s' h
    obtain ⟨-, -, -, hex, hcl, -⟩ :=
      contributeBandwidth_inv s s' sender batchId ct now h
    rcases hbatch with h' | h'
    · simp [h'] at hex
    · simp [h'] at hcl
  · intro hprov hnp hcd
    unfold contributeBandwidth
    rw [if_neg (by simp [hprov]), if_neg (by simp [hnp]),
      if_neg (by omega), if_pos hcond]

/-- C5 witness: on `exS`, batch `1` is closed; provider `1` with all other
guards passing is rejected `BatchClosedOrDoesNotExist`. -/
theorem C5_witness :
    contributeBandwidth exS 1 1 Ciphertext.encZero 100
      = .error .BatchClosedOrDoesNotExist :=
  (C5_closed_batch_rejected exS 1 1 100 Ciphertext.encZero (Or.inr rfl)).2
    rfl rfl (by decide)

/-- Batch well-formedness: every closed batch exists.  It holds at
deployment and is preserved by every operation (first two conjuncts of
`C6_batch_invariants`), so it holds in every reachable state. -/
def WFBatches (s : State) : Prop :=
  ∀ id, (s.batches id).closed = true → (s.batches id).exists' = true

/-- C6: every operation preserves the batch invariants.  On any reachable
(well-formed) state, each successful transaction preserves existence of
every batch, only ever moves `closed` from `false` to `true`, and changes
a batch's accumulator only when that batch was not closed; moreover
`openBatch` on an existing id fails `InvalidParameter` (and can never
succeed), so a batch id is never recreated. -/
theorem C6_batch_invariants :
    (∀ deployer, WFBatches (State.initial deployer)) ∧
    (∀ op s s', WFBatches s → step op s = .ok s' →
      WFBatches s' ∧
      (∀ id, (s.batches id).exists' = true → (s'.batches id).exists' = true) ∧
      (∀ id, (s.batches id).closed = true → (s'.batches id).closed = true) ∧
      (∀ id, (s'.batches id).totalEncryptedBandwidth
          ≠ (s.batches id).totalEncryptedBandwidth →
        (s.batches id).closed = false)) ∧
    (∀ s sender id, sender = s.owner → s.paused = false →
      (s.batches id).exists' = true →
      openBatch s sender id = .error .InvalidParameter) ∧
    (∀ s sender id s', (s.batches id).exists' = true →
      openBatch s sender id ≠ .ok s') := by
  refine ⟨?_, ?_, ?_, ?_⟩
  · intro deployer id hcl
    simp [State.initial, Batch.default0] at hcl
  · intro op s s' hwf hok
    cases op with
    | addProvider a p =>
      obtain ⟨-, rfl⟩ := addProvider_inv s s' a p hok
      exact ⟨hwf, fun id h => h, fun id h => h, fun id hne => absurd rfl hne⟩
    | removeProvider a p =>
      obtain ⟨-, rfl⟩ := removeProvider_inv s s' a p hok
      exact ⟨hwf, fun id h => h, fun id h => h, fun id hne => absurd rfl hne⟩
    | pause a =>
      obtain ⟨-, -, rfl⟩ := pause_inv s s' a hok
      exact ⟨hwf, fun id h => h, fun id h => h, fun id hne => absurd rfl hne⟩
    | unpause a =>
      obtain ⟨-, rfl⟩ := unpause_inv s s' a hok
      exact ⟨hwf, fun id h => h, fun id h => h, fun id hne => absurd rfl hne⟩
    | setCooldownSeconds a n =>
      obtain ⟨-, -, rfl⟩ := setCooldownSeconds_inv s s' a n hok
      exact ⟨hwf, fun id h => h, fun id h => h, fun id hne => absurd rfl hne⟩
    | requestBatchDecryption a bid now rid =>
      obtain ⟨-, -, -, -, -, rfl⟩ :=
        requestBatchDecryption_inv s s' a bid now rid hok
      exact ⟨hwf, fun id h => h, fun id h => h, fun id hne => absurd rfl hne⟩
    | myCallback a rid ct sig =>
      obtain ⟨-, -, -, rfl⟩ := myCallback_inv s s' a rid ct sig hok
      exact ⟨hwf, fun id h => h, fun id h => h, fun id hne => absurd rfl hne⟩
    | openBatch a bid =>
      obtain ⟨-, -, hex, rfl⟩ := openBatch_inv s s' a bid hok
      have hncl : (s.batches bid).closed = false := by
        rcases hc : (s.batches bid).closed with _ | _
        · rfl
        · exact absurd (hwf bid hc) (by simp [hex])
      refine ⟨?_, ?_, ?_, ?_⟩
      · intro id hcl
        by_cases hid : id = bid
        · subst hid; simp at hcl
        · simp [hid] at hcl ⊢
          exact hwf id hcl
      · intro id h
        by_cases hid : id = bid
        · subst hid; simp
        · simp [hid]
          exact h
      · intro id hcl
        by_cases hid : id = bid
        · subst hid
          exact absurd hcl (by simp [hncl])
        · simp [hid]
          exact hcl
      · intro id hne
        by_cases hid : id = bid
        · subst hid; exact hncl
        · simp [hid] at hne
    | closeBatch a bid =>
      obtain ⟨-, -, hex, hcl0, rfl⟩ := closeBatch_inv s s' a bid hok
      refine ⟨?_, ?_, ?_, ?_⟩
      · intro id hcl
        by_cases hid : id = bid
        · subst hid; simp
          exact hex
        · simp [hid] at hcl ⊢
          exact hwf id hcl
      · intro id h
        by_cases hid : id = bid
        · subst hid; simp
          exact hex
        · simp [hid]
          exact h
      · intro id hcl
        by_cases hid : id = bid
        · subst hid; simp
        · simp [hid]
          exact hcl
      · intro id hne
        by_cases hid : id = bid
        · subst hid; exact hcl0
        · simp [hid] at hne
    | contributeBandwidth a bid ct now =>
      obtain ⟨-, -, -, hex, hcl0, rfl⟩ :=
        contributeBandwidth_inv s s' a bid ct now hok
      refine ⟨?_, ?_, ?_, ?_⟩
      · intro id hcl
        by_cases hid : id = bid
        · subst hid; simp [hcl0] at hcl
        · simp [hid] at hcl ⊢
          exact hwf id hcl
      · intro id h
        by_cases hid : id = bid
        · subst hid; simp
          exact hex
        · simp [hid]
          exact h
      · intro id hcl
        by_cases hid : id = bid
        · subst hid; simp [hcl0] at hcl
        · simp [hid]
          exact hcl
      · intro id hne
        by_cases hid : id = bid
        · subst hid; exact hcl0
        · simp [hid] at hne
  · intro s sender id hown hnp hex
    unfold openBatch
    rw [if_neg (by simp [hown]), if_neg (by simp [hnp]), if_pos hex]
  · intro s sender id s' hex h
    obtain ⟨-, -, hex', -⟩ := openBatch_inv s s' sender id h
    simp [hex] at hex'

/-- C6 witness: on `exS`, batch `1` exists, and the owner's attempt to
reopen it while unpaused fails `InvalidParameter`. -/
theorem C6_witness : openBatch exS 0 1 = .error .InvalidParameter :=
  C6_batch_invariants.2.2.1 exS 0 1 rfl rfl rfl

/-- C8: `setCooldownSeconds 0` never succeeds and, for the owner, fails
`InvalidParameter` (a revert, so the prior value is untouched); the
cooldown is `60 > 0` at deployment and every successful transaction
preserves strict positivity, so `cooldownSeconds > 0` after every
operation. -/
theorem C8_cooldown_strictly_positive :
    (∀ s sender s', setCooldownSeconds s sender 0 ≠ .ok s') ∧
    (∀ s sender, sender = s.owner →
      setCooldownSeconds s sender 0 = .error .InvalidParameter) ∧
    (∀ deployer, 0 < (State.initial deployer).cooldownSeconds) ∧
    (∀ op s s', 0 < s.cooldownSeconds → step op s = .ok s' →
      0 < s'.cooldownSeconds) := by
  refine ⟨?_, ?_, ?_, ?_⟩
  · intro s sender s' h
    obtain ⟨-, hne, -⟩ := setCooldownSeconds_inv s s' sender 0 h
    exact hne rfl
  · intro s sender hown
    unfold setCooldownSeconds
    rw [if_neg (by simp [hown]), if_pos rfl]
  · intro deployer
    simp [State.initial]
  · intro op s s' hpos hok
    cases op with
    | setCooldownSeconds a n =>
      obtain ⟨-, hne, rfl⟩ := setCooldownSeconds_inv s s' a n hok
      exact Nat.pos_of_ne_zero hne
    | addProvider a p =>
      obtain ⟨-, rfl⟩ := addProvider_inv s s' a p hok; exact hpos
    | removeProvider a p =>
      obtain ⟨-, rfl⟩ := removeProvider_inv s s' a p hok; exact hpos
    | pause a =>
      obtain ⟨-, -, rfl⟩ := pause_inv s s' a hok; exact hpos
    | unpause a =>
      obtain ⟨-, rfl⟩ := unpause_inv s s' a hok; exact hpos
    | openBatch a bid =>
      obtain ⟨-, -, -, rfl⟩ := openBatch_inv s s' a bid hok; exact hpos
    | closeBatch a bid =>
      obtain ⟨-, -, -, -, rfl⟩ := closeBatch_inv s s' a bid hok; exact hpos
    | contributeBandwidth a bid ct now =>
      obtain ⟨-, -, -, -, -, rfl⟩ :=
        contributeBandwidth_inv s s' a bid ct now hok
      exact hpos
    | requestBatchDecryption a bid now rid =>
      obtain ⟨-, -, -, -, -, rfl⟩ :=
        requestBatchDecryption_inv s s' a bid now rid hok
      exact hpos
    | myCallback a rid ct sig =>
      obtain ⟨-, -, -, rfl⟩ := myCallback_inv s s' a rid ct sig hok
      exact hpos

/-- C8 witness: the owner of `exS` setting the cooldown to `0` fails
`InvalidParameter`, and the freshly deployed cooldown is positive. -/
theorem C8_witness :
    setCooldownSeconds exS 0 0 = .error .InvalidParameter ∧
    0 < (State.initial 4).cooldownSeconds :=
  ⟨C8_cooldown_strictly_positive.2.1 exS 0 rfl,
   C8_cooldown_strictly_positive.2.2.1 4⟩

/-- A state with owner `0`, provider `1`, an open batch `3`, a closed
batch `4`, no prior gated actions, and the default cooldown of 60. -/
def exC : State where
  isProvider := fun a => a == 1
  batches := fun b =>
    if b = 3 then ⟨true, false, Ciphertext.encZero⟩
    else if b = 4 then ⟨true, true, Ciphertext.encZero⟩
    else Batch.default0
  decryptionContexts := fun _ => DecryptionContext.default0
  lastSubmissionTime := fun _ => 0
  lastDecryptionRequestTime := fun _ => 0
  owner := 0
  paused := false
  cooldownSeconds := 60
  events := []

/-- The state after provider `1` contributes to batch `3` at time 100. -/
def exC1 : State :=
  match contributeBandwidth exC 1 3 Ciphertext.encZero 100 with
  | .ok t => t
  | .error _ => exC

theorem exC1_ok :
    contributeBandwidth exC 1 3 Ciphertext.encZero 100 = Except.ok exC1 := rfl

/-- The state after the owner requests decryption of batch `4` at time 100
(engine-issued request id `11`). -/
def exR1 : State :=
  match requestBatchDecryption exC 0 4 100 11 with
  | .ok t => t
  | .error _ => exC

theorem exR1_ok :
    requestBatchDecryption exC 0 4 100 11 = Except.ok exR1 := rfl

/-- `exC` with the global pause flag set. -/
def exP : State := { exC with paused := true }

/-- C7: for each gated action kind, after a successful call by an actor at
time `t1`, a second call by the same actor strictly less than
`cooldownSeconds` later fails `CooldownActive`, while a second call spaced
at least `cooldownSeconds` later succeeds whenever the batch precondition
of that action holds (the other guards persist from the first success). -/
theorem C7_cooldown_gate :
    (∀ s s1 a bid ct t1, contributeBandwidth s a bid ct t1 = .ok s1 →
      (∀ bid2 ct2 t2, t2 < t1 + s1.cooldownSeconds →
        contributeBandwidth s1 a bid2 ct2 t2 = .error .CooldownActive) ∧
      (∀ bid2 ct2 t2, t1 + s1.cooldownSeconds ≤ t2 →
        (s1.batches bid2).exists' = true → (s1.batches bid2).closed = false →
        (contributeBandwidth s1 a bid2 ct2 t2).isOk = true)) ∧
    (∀ s s1 a bid t1 rid, requestBatchDecryption s a bid t1 rid = .ok s1 →
      (∀ bid2 t2 rid2, t2 < t1 + s1.cooldownSeconds →
        requestBatchDecryption s1 a bid2 t2 rid2 = .error .CooldownActive) ∧
      (∀ bid2 t2 rid2, t1 + s1.cooldownSeconds ≤ t2 →
        (s1.batches bid2).exists' = true → (s1.batches bid2).closed = true →
        (requestBatchDecryption s1 a bid2 t2 rid2).isOk = true)) := by
  constructor
  · intro s s1 a bid ct t1 hok1
    obtain ⟨hprov, hnp, -, -, -, rfl⟩ :=
      contributeBandwidth_inv s s1 a bid ct t1 hok1
    constructor
    · intro bid2 ct2 t2 ht2
      unfold contributeBandwidth
      rw [if_neg (by simp [hprov]), if_neg (by simp [hnp]),
        if_pos (by simpa using ht2)]
    · intro bid2 ct2 t2 ht2 hex2 hcl2
      have ht2' : t1 + s.cooldownSeconds ≤ t2 := by simpa using ht2
      unfold contributeBandwidth
      rw [if_neg (by simp [hprov]), if_neg (by simp [hnp]),
        if_neg (by simpa using Nat.not_lt.mpr ht2'),
        if_neg (by
          simp only [batchExists, not_or, not_not, Bool.not_eq_true]
          exact ⟨by simpa using hex2, by simpa using hcl2⟩)]
      rfl
  · intro s s1 a bid t1 rid hok1
    obtain ⟨hown, hnp, -, -, -, rfl⟩ :=
      requestBatchDecryption_inv s s1 a bid t1 rid hok1
    constructor
    · intro bid2 t2 rid2 ht2
      unfold requestBatchDecryption
      rw [if_neg (by simp [hown]), if_neg (by simp [hnp]),
        if_pos (by simpa using ht2)]
    · intro bid2 t2 rid2 ht2 hex2 hcl2
      have ht2' : t1 + s.cooldownSeconds ≤ t2 := by simpa using ht2
      unfold requestBatchDecryption
      rw [if_neg (by simp [hown]), if_neg (by simp [hnp]),
        if_neg (by simpa using Nat.not_lt.mpr ht2'),
        if_neg (by
          simp only [batchExists, not_or, not_not]
          exact ⟨by simpa using hex2, by simpa using hcl2⟩)]
      rfl

/-- C7 witness: provider `1` contributes at t=100; a retry at t=150 fails
`CooldownActive`, at t=160 it succeeds.  The owner requests decryption at
t=100; a second request at t=150 fails `CooldownActive`, at t=160 it
succeeds. -/
theorem C7_witness :
    contributeBandwidth exC1 1 3 Ciphertext.encZero 150
      = .error .CooldownActive ∧
    (contributeBandwidth exC1 1 3 Ciphertext.encZero 160).isOk = true ∧
    requestBatchDecryption exR1 0 4 150 12 = .error .CooldownActive ∧
    (requestBatchDecryption exR1 0 4 160 12).isOk = true := by
  have hc := C7_cooldown_gate.1 exC exC1 1 3 Ciphertext.encZero 100 exC1_ok
  have hr := C7_cooldown_gate.2 exC exR1 0 4 100 11 exR1_ok
  exact ⟨hc.1 3 Ciphertext.encZero 150 (by decide),
    hc.2 3 Ciphertext.encZero 160 (by decide) (by decide) (by decide),
    hr.1 4 150 12 (by decide),
    hr.2 4 160 12 (by decide) (by decide) (by decide)⟩

/-- C9: while the system is paused, the owner-only operations
`addProvider`, `removeProvider`, `unpause` and `setCooldownSeconds` (with
a nonzero value) still succeed for the owner, whereas `openBatch`,
`closeBatch`, `pause` itself, `contributeBandwidth` (for a provider) and
`requestBatchDecryption` are rejected with `Paused`. -/
theorem C9_pause_gating (s : State) (hp : s.paused = true) :
    (∀ p, (addProvider s s.owner p).isOk = true) ∧
    (∀ p, (removeProvider s s.owner p).isOk = true) ∧
    (unpause s s.owner).isOk = true ∧
    (∀ n, n ≠ 0 → (setCooldownSeconds s s.owner n).isOk = true) ∧
    (∀ bid, openBatch s s.owner bid = .error .Paused) ∧
    (∀ bid, closeBatch s s.owner bid = .error .Paused) ∧
    pause s s.owner = .error .Paused ∧
    (∀ sender bid ct now, s.isProvider sender = true →
      contributeBandwidth s sender bid ct now = .error .Paused) ∧
    (∀ bid now rid,
      requestBatchDecryption s s.owner bid now rid = .error .Paused) := by
  refine ⟨?_, ?_, ?_, ?_, ?_, ?_, ?_, ?_, ?_⟩
  · intro p; unfold addProvider; rw [if_neg (by simp)]; rfl
  · intro p; unfold removeProvider; rw [if_neg (by simp)]; rfl
  · unfold unpause; rw [if_neg (by simp)]; rfl
  · intro n hn; unfold setCooldownSeconds
    rw [if_neg (by simp), if_neg hn]; rfl
  · intro bid; unfold openBatch; rw [if_neg (by simp), if_pos hp]
  · intro bid; unfold closeBatch; rw [if_neg (by simp), if_pos hp]
  · unfold pause; rw [if_neg (by simp), if_pos hp]
  · intro sender bid ct now hprov
    unfold contributeBandwidth
    rw [if_neg (by simp [hprov]), if_pos hp]
  · intro bid now rid
    unfold requestBatchDecryption
    rw [if_neg (by simp), if_pos hp]

/-- C9 witness: on the paused state `exP`, the owner can still add a
provider, while opening a batch is rejected `Paused`. -/
theorem C9_witness :
    (addProvider exP exP.owner 2).isOk = true ∧
    openBatch exP exP.owner 9 = .error .Paused :=
  ⟨(C9_pause_gating exP rfl).1 2, (C9_pause_gating exP rfl).2.2.2.2.1 9⟩

/-- C10: for an actor with no recorded action of a gated kind (last-action
time is the mapping default `0`), the cooldown check compares against `0`,
so even the first contribution or first decryption request fails
`CooldownActive` whenever the current time is below `cooldownSeconds`
(once the capability and pause guards pass). -/
theorem C10_default_cooldown_zero (s : State) (a bid now rid : Nat)
    (ct : Ciphertext)
    (hsub : s.lastSubmissionTime a = 0)
    (hdec : s.lastDecryptionRequestTime a = 0)
    (hlt : now < s.cooldownSeconds) :
    (s.isProvider a = true → s.paused = false →
      contributeBandwidth s a bid ct now = .error .CooldownActive) ∧
    (a = s.owner → s.paused = false →
      requestBatchDecryption s a bid now rid = .error .CooldownActive) := by
  constructor
  · intro hprov hnp
    unfold contributeBandwidth
    rw [if_neg (by simp [hprov]), if_neg (by simp [hnp]),
      if_pos (by rw [hsub]; omega)]
  · intro hown hnp
    unfold requestBatchDecryption
    rw [if_neg (by simp [hown]), if_neg (by simp [hnp]),
      if_pos (by rw [hdec]; omega)]

/-- C10 witness: on `exC` nobody has acted yet; at time 30 (below the 60 s
cooldown) provider `1`'s first contribution and the owner's first
decryption request both fail `CooldownActive`. -/
theorem C10_witness :
    contributeBandwidth exC 1 3 Ciphertext.encZero 30
      = .error .CooldownActive ∧
    requestBatchDecryption exC 0 4 30 11 = .error .CooldownActive :=
  ⟨(C10_default_cooldown_zero exC 1 3 30 11 Ciphertext.encZero rfl rfl
      (by decide)).1 rfl rfl,
   (C10_default_cooldown_zero exC 0 4 30 11 Ciphertext.encZero rfl rfl
      (by decide)).2 rfl rfl⟩

end DVPNShareFHE
